import Mathlib

/-
Verification of the dual-protocol server (gRPC + HTTP gateway) repository:
a shallow embedding of its lifecycle coordinator, gateway routing, user
service and configuration loading, with theorems checking the spec's
claims against the embedded code.
-/

namespace GrpcGateway

/-! ## Pagination (`UserService.ListUsers`, src/internal/models/user.go) -/

/-- Modelled from the spec: `pb.ListUsersRequest` is generated protobuf code
absent from the sources; the spec describes a paginated list operation taking
`page` and `page_size` numbers, modelled here as unbounded integers. -/
structure ListUsersRequest where
  page : Int
  pageSize : Int
deriving Repr, DecidableEq

/-- Modelled from the spec: the paginated list response, carrying the users of
the requested page together with the total count and the effective
`page`/`page_size` echoed back. -/
structure ListUsersResponse (α : Type) where
  users : List α
  total : Int
  page : Int
  pageSize : Int
deriving Repr, DecidableEq

/-- Pagination core of `UserService.ListUsers` (src/internal/models/user.go,
lines 109-164): normalise `page` and `page_size`, compute `skip`/`limit`, and
slice the document sequence the sorted Mongo query yields. `docs` stands for
the collection's documents in the query's sort order. -/
def listUsers (docs : List α) (req : ListUsersRequest) : ListUsersResponse α :=
  let page := if req.page ≤ 0 then 1 else req.page
  let pageSize := if req.pageSize ≤ 0 then 10 else req.pageSize
  let skip := (page - 1) * pageSize
  let limit := pageSize
  { users := (docs.drop skip.toNat).take limit.toNat
    total := (docs.length : Int)
    page := page
    pageSize := pageSize }

/-! ## Gateway server stop (src/internal/server/gateway_server.go) -/

/-- State of the `net/http` server owned by the gateway once `Start` has built
it: whether `Shutdown` has already been invoked, and the error (if any) that
closing its listeners would report the first time. -/
structure HttpServer where
  shutdownCalled : Bool
  closeErr : Option String
deriving Repr, DecidableEq

/-- Embedded `http.Server.Shutdown` (with a background context): the first call
closes the listeners and reports their close error; once shut down, a further
call finds nothing left to close and returns success. -/
def HttpServer.shutdown (h : HttpServer) : Except String Unit × HttpServer :=
  if h.shutdownCalled then (Except.ok (), h)
  else
    (match h.closeErr with
     | some e => Except.error e
     | none => Except.ok (),
     { h with shutdownCalled := true })

/-- GatewayServer (src/internal/server/gateway_server.go): the `server` field
is `nil` until `Start` has constructed the `http.Server`, modelled as an
`Option`. -/
structure GatewayServer where
  server : Option HttpServer
deriving Repr, DecidableEq

/-- Embedded `GatewayServer.Stop` (lines 76-82): when `server` is `nil` it
returns `nil` without doing anything; otherwise it delegates to
`http.Server.Shutdown`. -/
def GatewayServer.stop (g : GatewayServer) : Except String Unit × GatewayServer :=
  match g.server with
  | none => (Except.ok (), g)
  | some h =>
    let r := h.shutdown
    (r.1, { server := some r.2 })

/-! ## MongoDB timeouts (src/unnamed/part_001, package `db`) -/

/-- Timeout, in seconds, of the `context.WithTimeout` guarding
`mongo.Connect` and the startup `Ping` inside `NewMongoDB`
(src/unnamed/part_001, line 20). -/
def mongoConnectTimeoutSeconds : Nat := 10

/-- Timeout, in seconds, of the `context.WithTimeout` guarding the `Ping`
inside `MongoDB.Health` (src/unnamed/part_001, line 63). -/
def mongoHealthTimeoutSeconds : Nat := 5

/-- Timeout, in seconds, of the `context.WithTimeout` guarding `Disconnect`
inside `MongoDB.Close` (src/unnamed/part_001, line 50). -/
def mongoCloseTimeoutSeconds : Nat := 10

/-- Outcome of a MongoDB driver call under a deadline. -/
inductive DbError
  | deadlineExceeded
  | other (msg : String)
deriving Repr, DecidableEq

/-- Environment for the database operations: how many seconds the underlying
driver call would take, and its result when it completes in time. -/
structure MongoEnv where
  connectDur : Nat
  connectRes : Except DbError Unit
  pingDur : Nat
  pingRes : Except DbError Unit
deriving Repr

/-- Running a driver call under a `context.WithTimeout` bound: when the call
takes longer than the bound the context's deadline fires and the call reports
a deadline error; otherwise its own result stands. -/
def runBounded (limitSeconds dur : Nat) (res : Except DbError Unit) :
    Except DbError Unit :=
  if limitSeconds < dur then Except.error DbError.deadlineExceeded else res

/-- Embedded `NewMongoDB` (src/unnamed/part_001, lines 19-46): connect and
ping under the 10-second bound. -/
def newMongoDB (env : MongoEnv) : Except DbError Unit :=
  runBounded mongoConnectTimeoutSeconds env.connectDur env.connectRes

/-- Embedded `MongoDB.Health` (src/unnamed/part_001, lines 62-67): ping under
the 5-second bound. -/
def mongoHealth (env : MongoEnv) : Except DbError Unit :=
  runBounded mongoHealthTimeoutSeconds env.pingDur env.pingRes

/-! ## User service: ObjectID parsing, update, delete
(src/internal/models/user.go, package `service`) -/

/-- Hex digit test matching what the driver's `ObjectIDFromHex` accepts per
character (`encoding/hex` decoding): 0-9, a-f, A-F. -/
def isHexDigitChar (c : Char) : Bool :=
  (48 ≤ c.toNat && c.toNat ≤ 57) ||
  (97 ≤ c.toNat && c.toNat ≤ 102) ||
  (65 ≤ c.toNat && c.toNat ≤ 70)

/-- Lower-casing of the six upper-case hex letters, spelt out so that the
kernel can evaluate it on literals. -/
def hexCharToLower (c : Char) : Char :=
  if c = 'A' then 'a' else if c = 'B' then 'b' else if c = 'C' then 'c'
  else if c = 'D' then 'd' else if c = 'E' then 'e'
  else if c = 'F' then 'f' else c

/-- Embedded `primitive.ObjectIDFromHex`: a Mongo ObjectID is twelve bytes
rendered as 24 hex characters; the driver accepts exactly strings of length 24
whose characters are all hex digits. The decoded value is kept as the
lower-cased hex string (hex decoding is case-insensitive). -/
def objectIDFromHex (s : String) : Option String :=
  if s.length = 24 && s.data.all isHexDigitChar then
    some ⟨s.data.map hexCharToLower⟩
  else none

/-- A user document as stored in the `users` collection
(src/internal/models/user.go, package `models`): `_id`, the three scalar
fields, and the two timestamps (as seconds). -/
structure StoredUser where
  id : String
  name : String
  email : String
  phone : String
  createdAt : Nat
  updatedAt : Nat
deriving Repr, DecidableEq

/-- The `users` collection, in the driver's document order. -/
abbrev UserStore := List StoredUser

/-- gRPC status codes the service returns. -/
inductive GrpcCode
  | invalidArgument
  | notFound
  | internal
deriving Repr, DecidableEq

/-- Modelled from the spec: `pb.UpdateUserRequest` is generated protobuf code
absent from the sources; the spec describes the update as partial and
field-presence-aware, so `name`, `email` and `phone` are optional fields. -/
structure UpdateUserRequest where
  id : String
  name : Option String
  email : Option String
  phone : Option String
deriving Repr, DecidableEq

/-- The `$set` document built by `UserService.UpdateUser`
(src/internal/models/user.go, lines 175-189) applied to a matched document:
`updated_at` is always set; each of `name`, `email`, `phone` is set exactly
when present in the request. -/
def applySet (now : Nat) (req : UpdateUserRequest) (u : StoredUser) :
    StoredUser :=
  { u with
    updatedAt := now
    name := req.name.getD u.name
    email := req.email.getD u.email
    phone := req.phone.getD u.phone }

/-- Update of the first document matching a predicate, the effect of
`FindOneAndUpdate` on the collection. -/
def updateFirst (p : α → Bool) (f : α → α) : List α → List α
  | [] => []
  | x :: xs => if p x then f x :: xs else x :: updateFirst p f xs

/-- Embedded `UserService.GetUser` (src/internal/models/user.go,
lines 87-106): parse the id, then find the document; returns the paired
(unchanged) store to make the frame explicit. -/
def getUser (store : UserStore) (id : String) :
    Except GrpcCode StoredUser × UserStore :=
  match objectIDFromHex id with
  | none => (Except.error GrpcCode.invalidArgument, store)
  | some oid =>
    match store.find? (fun u => u.id = oid) with
    | none => (Except.error GrpcCode.notFound, store)
    | some u => (Except.ok u, store)

/-- Embedded `UserService.UpdateUser` (src/internal/models/user.go,
lines 167-208): parse the id, then `FindOneAndUpdate` with the `$set`
document, returning the post-update document. -/
def updateUser (store : UserStore) (now : Nat) (req : UpdateUserRequest) :
    Except GrpcCode StoredUser × UserStore :=
  match objectIDFromHex req.id with
  | none => (Except.error GrpcCode.invalidArgument, store)
  | some oid =>
    match store.find? (fun u => u.id = oid) with
    | none => (Except.error GrpcCode.notFound, store)
    | some u =>
      (Except.ok (applySet now req u),
       updateFirst (fun v => v.id = oid) (applySet now req) store)

/-- Embedded `UserService.DeleteUser` (src/internal/models/user.go,
lines 211-230): parse the id, `DeleteOne`, and report not-found when the
deleted count is zero. -/
def deleteUser (store : UserStore) (id : String) :
    Except GrpcCode Unit × UserStore :=
  match objectIDFromHex id with
  | none => (Except.error GrpcCode.invalidArgument, store)
  | some oid =>
    if store.any (fun u => u.id = oid) then
      (Except.ok (), store.eraseP (fun u => u.id = oid))
    else (Except.error GrpcCode.notFound, store)

/-! ## Configuration loading (src/internal/config/config.go) -/

/-- The process environment as `config.Load` reads it: each recognised
variable is either set to a string or absent. -/
structure ConfigEnv where
  mongodbUri : Option String
  mongodbDatabase : Option String
  grpcPort : Option String
  httpPort : Option String
  host : Option String
  logLevel : Option String
deriving Repr, DecidableEq

/-- MongoDBConfig (src/internal/config/config.go). -/
structure MongoDBConfig where
  uri : String
  database : String
deriving Repr, DecidableEq

/-- ServerConfig (src/internal/config/config.go). -/
structure ServerConfig where
  grpcPort : String
  httpPort : String
  host : String
deriving Repr, DecidableEq

/-- Config (src/internal/config/config.go). -/
structure Config where
  mongoDB : MongoDBConfig
  server : ServerConfig
  logLevel : String
deriving Repr, DecidableEq

/-- The error type of `config.Load`'s Go signature `(*Config, error)`. -/
inductive ConfigError
  | malformed (msg : String)
deriving Repr, DecidableEq

/-- Logrus log levels. -/
inductive LogLevel
  | panicLevel
  | fatalLevel
  | errorLevel
  | warnLevel
  | infoLevel
  | debugLevel
  | traceLevel
deriving Repr, DecidableEq

/-- ASCII lower-casing of a single character, spelt out over the upper-case
letters the level names use so that the kernel can evaluate it on literals. -/
def asciiCharToLower (c : Char) : Char :=
  match c with
  | 'A' => 'a' | 'B' => 'b' | 'C' => 'c' | 'D' => 'd' | 'E' => 'e'
  | 'F' => 'f' | 'G' => 'g' | 'H' => 'h' | 'I' => 'i' | 'J' => 'j'
  | 'K' => 'k' | 'L' => 'l' | 'M' => 'm' | 'N' => 'n' | 'O' => 'o'
  | 'P' => 'p' | 'Q' => 'q' | 'R' => 'r' | 'S' => 's' | 'T' => 't'
  | 'U' => 'u' | 'V' => 'v' | 'W' => 'w' | 'X' => 'x' | 'Y' => 'y'
  | 'Z' => 'z' | _ => c

/-- ASCII lower-casing of a string (`strings.ToLower` on the ASCII level
names). -/
def asciiToLower (s : String) : String := ⟨s.data.map asciiCharToLower⟩

/-- Embedded `logrus.ParseLevel`: case-insensitive match of the recognised
level names, `nil` plus an error otherwise. -/
def parseLevel (s : String) : Option LogLevel :=
  match asciiToLower s with
  | "panic" => some LogLevel.panicLevel
  | "fatal" => some LogLevel.fatalLevel
  | "error" => some LogLevel.errorLevel
  | "warn" => some LogLevel.warnLevel
  | "warning" => some LogLevel.warnLevel
  | "info" => some LogLevel.infoLevel
  | "debug" => some LogLevel.debugLevel
  | "trace" => some LogLevel.traceLevel
  | _ => none

/-- A viper `GetString` after `SetDefault`: the environment value when set,
the default otherwise. -/
def getOr (v : Option String) (dflt : String) : String := v.getD dflt

/-- The config record `config.Load` builds (src/internal/config/config.go,
lines 50-61): every value read from the environment with its default. -/
def configOf (env : ConfigEnv) : Config :=
  { mongoDB :=
      { uri := getOr env.mongodbUri "mongodb://localhost:27017"
        database := getOr env.mongodbDatabase "grpcgateway_db" }
    server :=
      { grpcPort := getOr env.grpcPort "9090"
        httpPort := getOr env.httpPort "8080"
        host := getOr env.host "localhost" }
    logLevel := getOr env.logLevel "info" }

/-- Embedded `config.Load` (src/internal/config/config.go, lines 32-72):
defaults are applied for every unset variable, an unparsable log level is
replaced by `info` with only a warning, and the function returns the config
and the effective level — the error result is always `nil`. -/
def loadConfig (env : ConfigEnv) : Except ConfigError (Config × LogLevel) :=
  Except.ok
    (configOf env,
     (parseLevel (configOf env).logLevel).getD LogLevel.infoLevel)

/-! ## Gateway HTTP routing and CORS
(src/internal/server/gateway_server.go, lines 85-173) -/

/-- An HTTP request as the routing layer sees it: method and path. The model
takes requests with the canonical path `net/http` hands the mux after its URL
clean-up. -/
structure Request where
  method : String
  path : String
deriving Repr, DecidableEq

/-- An HTTP response: status code, the headers set on the writer, and the
body. -/
structure Response where
  status : Nat
  headers : List (String × String)
  body : String
deriving Repr, DecidableEq

/-- The three headers `corsMiddleware` sets
(src/internal/server/gateway_server.go, lines 105-107). -/
def corsHeaders : List (String × String) :=
  [("Access-Control-Allow-Origin", "*"),
   ("Access-Control-Allow-Methods", "GET, POST, PUT, DELETE, OPTIONS"),
   ("Access-Control-Allow-Headers", "Content-Type, Authorization")]

/-- Embedded `corsMiddleware` (src/internal/server/gateway_server.go,
lines 102-118): set the three headers, short-circuit OPTIONS with a 200 and an
empty body, and otherwise hand over to the wrapped handler. -/
def corsMiddleware (next : Request → Response) (r : Request) : Response :=
  if r.method = "OPTIONS" then
    { status := 200, headers := corsHeaders, body := "" }
  else
    let resp := next r
    { resp with headers := corsHeaders ++ resp.headers }

/-- Environment of the routing layer: the grpc-gateway `runtime.ServeMux`
(generated dispatch, external to this core) as an opaque handler, and the
contents of `docs/api.swagger.json` when the file is readable. -/
structure RoutingEnv where
  gatewayMux : Request → Response
  swaggerFile : Option String

/-- Response written by `http.Error`: the message plus a newline, with the
standard plain-text headers. -/
def httpErrorResponse (msg : String) (code : Nat) : Response :=
  { status := code
    headers := [("Content-Type", "text/plain; charset=utf-8"),
                ("X-Content-Type-Options", "nosniff")]
    body := msg ++ "\n" }

/-- Embedded `swaggerJSONHandler` (src/internal/server/gateway_server.go,
lines 121-131): serve the swagger file, or a plain 404 when it cannot be
read. -/
def swaggerJSONHandler (env : RoutingEnv) (_ : Request) : Response :=
  match env.swaggerFile with
  | none => httpErrorResponse "Swagger file not found" 404
  | some data =>
    { status := 200
      headers := [("Content-Type", "application/json")]
      body := data }

/-- The static HTML page `swaggerUIHandler` embeds, abbreviated to a marker
(its exact text plays no role in any claim). -/
def swaggerHTMLPage : String := "<swagger-ui standalone page>"

/-- Embedded `swaggerUIHandler` (src/internal/server/gateway_server.go,
lines 134-173): an unconditional 200 with the HTML viewer page, whatever the
request method. -/
def swaggerUIHandler (_ : Request) : Response :=
  { status := 200
    headers := [("Content-Type", "text/html")]
    body := swaggerHTMLPage }

/-- Embedded `setupRoutes` (src/internal/server/gateway_server.go,
lines 85-99) composed with `net/http.ServeMux` dispatch over the three
registered patterns: the exact path `/swagger.json`, the subtree `/swagger/`
(with the mux's 301 redirect of `/swagger` to `/swagger/`, body omitted), and
everything else falling through to the CORS-wrapped grpc-gateway mux. Note
that only the catch-all route passes through `corsMiddleware`. -/
def serveGateway (env : RoutingEnv) (r : Request) : Response :=
  if r.path = "/swagger.json" then swaggerJSONHandler env r
  else if List.isPrefixOf "/swagger/".data r.path.data then swaggerUIHandler r
  else if r.path = "/swagger" then
    { status := 301, headers := [("Location", "/swagger/")], body := "" }
  else corsMiddleware env.gatewayMux r

/-- A concrete routing environment: a gateway mux answering 200 with an empty
JSON object and no headers of its own, and a present swagger file. -/
def sampleRoutingEnv : RoutingEnv :=
  { gatewayMux := fun _ =>
      { status := 200, headers := [], body := "\x7b\x7d" }
    swaggerFile := some "\x7b\"swagger\":\"2.0\"\x7d" }

/-! ## Gateway server start (src/internal/server/gateway_server.go,
lines 33-73) -/

/-- Outcome of `GatewayServer.Start`: a dial failure, a handler-registration
failure, or reaching `ListenAndServe` (whose own return value `Start` passes
through). -/
inductive StartOutcome
  | dialFailed (msg : String)
  | registerFailed (msg : String)
  | served (listenRes : Except String Unit)
deriving Repr

/-- Environment of `GatewayServer.Start`: the results of its three external
calls. `dial` is the outcome of the blocking `grpc.DialContext` with
`WithBlock` — success means the call returned once the RPC listener was ready
to accept; an error is the `DialError` case. -/
structure StartEnv where
  dial : Except String Unit
  register : Except String Unit
  listenAndServe : Except String Unit

/-- Embedded `GatewayServer.Start` (src/internal/server/gateway_server.go,
lines 33-73): dial the gRPC server first, then register the handler, then
serve HTTP; each failure is returned with the source's wrapping message and
stops the sequence. -/
def gatewayStart (env : StartEnv) : StartOutcome :=
  match env.dial with
  | Except.error e => StartOutcome.dialFailed ("failed to dial gRPC server: " ++ e)
  | Except.ok () =>
    match env.register with
    | Except.error e =>
      StartOutcome.registerFailed ("failed to register user service handler: " ++ e)
    | Except.ok () => StartOutcome.served env.listenAndServe

/-! ## Process lifecycle coordinator (`runServer`, src/cmd/main.go) -/

/-- Whether a server goroutine is still inside its `Start()` call or has
returned (by failure or after a graceful stop). -/
inductive UnitState
  | running
  | done
deriving Repr, DecidableEq

/-- Program counter of the main goroutine of `runServer` (src/cmd/main.go,
lines 31-104): blocked in the `select` on the signal channel and `ctx.Done()`;
the two `Stop` calls; `wg.Wait()`; the two deferred calls (`cancel`, then
`mongodb.Close` — LIFO order of the defers registered at lines 43 and 55); and
returned to the caller. -/
inductive MainPC
  | waiting
  | stopGatewayCall
  | stopGrpcCall
  | joinUnits
  | deferCancel
  | deferCloseDb
  | returned
deriving Repr, DecidableEq

/-- Observable events of a coordinator run, recorded in order. -/
inductive Event
  | grpcExited
  | gatewayExited
  | gatewayStopCalled
  | grpcStopCalled
  | unitsJoined
  | dbClosed
deriving Repr, DecidableEq

/-- Global state of `runServer`: the two server goroutines, the main
goroutine's position, whether `cancel()` has run, and the event trace. -/
structure CoordState where
  grpcUnit : UnitState
  gatewayUnit : UnitState
  pc : MainPC
  ctxCancelled : Bool
  trace : List Event
deriving Repr, DecidableEq

/-- Scheduler labels: a server goroutine's `Start()` returning (its error is
only logged — src/cmd/main.go lines 62-67 and 71-76 call neither `cancel` nor
any stop), delivery of SIGINT/SIGTERM, the `ctx.Done()` branch of the select,
and the main goroutine executing its next statement. -/
inductive Label
  | grpcExit
  | gatewayExit
  | signal
  | ctxDone
  | mainStep
deriving Repr, DecidableEq

/-- State right after `runServer` has spawned both goroutines and entered the
select (src/cmd/main.go, line 82). -/
def initCoord : CoordState :=
  { grpcUnit := UnitState.running
    gatewayUnit := UnitState.running
    pc := MainPC.waiting
    ctxCancelled := false
    trace := [] }

/-- One scheduler step of the embedded `runServer`. A label whose transition
is not enabled (a blocked select, a `wg.Wait()` with a goroutine still
running, `ctx.Done()` without a cancelled context) leaves the state
unchanged. -/
def coordStep (s : CoordState) : Label → CoordState
  | Label.grpcExit =>
    if s.grpcUnit = UnitState.running then
      { s with grpcUnit := UnitState.done,
               trace := s.trace ++ [Event.grpcExited] }
    else s
  | Label.gatewayExit =>
    if s.gatewayUnit = UnitState.running then
      { s with gatewayUnit := UnitState.done,
               trace := s.trace ++ [Event.gatewayExited] }
    else s
  | Label.signal =>
    if s.pc = MainPC.waiting then { s with pc := MainPC.stopGatewayCall }
    else s
  | Label.ctxDone =>
    if s.pc = MainPC.waiting then
      if s.ctxCancelled then { s with pc := MainPC.stopGatewayCall } else s
    else s
  | Label.mainStep =>
    match s.pc with
    | MainPC.waiting => s
    | MainPC.stopGatewayCall =>
      { s with pc := MainPC.stopGrpcCall,
               trace := s.trace ++ [Event.gatewayStopCalled] }
    | MainPC.stopGrpcCall =>
      { s with pc := MainPC.joinUnits,
               trace := s.trace ++ [Event.grpcStopCalled] }
    | MainPC.joinUnits =>
      if s.grpcUnit = UnitState.done then
        if s.gatewayUnit = UnitState.done then
          { s with pc := MainPC.deferCancel,
                   trace := s.trace ++ [Event.unitsJoined] }
        else s
      else s
    | MainPC.deferCancel =>
      { s with pc := MainPC.deferCloseDb, ctxCancelled := true }
    | MainPC.deferCloseDb =>
      { s with pc := MainPC.returned, trace := s.trace ++ [Event.dbClosed] }
    | MainPC.returned => s

/-- Running the coordinator under a schedule. -/
def coordRun (ls : List Label) (s : CoordState) : CoordState :=
  ls.foldl coordStep s

/-- The coordinator's own control actions among the events (server-goroutine
exits are interleaved freely and filtered out). -/
def isCtrlEvent : Event → Bool
  | Event.gatewayStopCalled => true
  | Event.grpcStopCalled => true
  | Event.unitsJoined => true
  | Event.dbClosed => true
  | _ => false

/-- Control-event projection of a state's trace. -/
def ctrlTrace (s : CoordState) : List Event :=
  s.trace.filter isCtrlEvent

/-- The control events a run has emitted by the time the main goroutine sits
at a given position. -/
def expectedCtrl : MainPC → List Event
  | MainPC.waiting => []
  | MainPC.stopGatewayCall => []
  | MainPC.stopGrpcCall => [Event.gatewayStopCalled]
  | MainPC.joinUnits => [Event.gatewayStopCalled, Event.grpcStopCalled]
  | MainPC.deferCancel =>
    [Event.gatewayStopCalled, Event.grpcStopCalled, Event.unitsJoined]
  | MainPC.deferCloseDb =>
    [Event.gatewayStopCalled, Event.grpcStopCalled, Event.unitsJoined]
  | MainPC.returned =>
    [Event.gatewayStopCalled, Event.grpcStopCalled, Event.unitsJoined,
     Event.dbClosed]

/-- Whether `cancel()` has run by a given main-goroutine position (the first
deferred call, executed between `deferCancel` and `deferCloseDb`). -/
def expectedCancelled : MainPC → Bool
  | MainPC.deferCloseDb => true
  | MainPC.returned => true
  | _ => false

/-- Positions reachable only once `wg.Wait()` has passed, which requires both
server goroutines to have exited. -/
def pastJoin : MainPC → Bool
  | MainPC.deferCancel => true
  | MainPC.deferCloseDb => true
  | MainPC.returned => true
  | _ => false

/-- Invariant of the coordinator run: the main goroutine's position determines
exactly the control events on the trace (in order) and the context's
cancellation flag, and positions past the join are reached only with both
server goroutines exited. -/
def CoordInv (s : CoordState) : Prop :=
  ctrlTrace s = expectedCtrl s.pc ∧
  s.ctxCancelled = expectedCancelled s.pc ∧
  (pastJoin s.pc = true →
    s.grpcUnit = UnitState.done ∧ s.gatewayUnit = UnitState.done)

/-- Helper invariant for schedules with no delivered OS signal: the main
goroutine stays blocked in the select, the context is never cancelled, and no
control event is ever emitted. -/
def StuckInv (s : CoordState) : Prop :=
  s.pc = MainPC.waiting ∧ s.ctxCancelled = false ∧ ctrlTrace s = []

/-! ## Theorems for C6, C7, C8 -/

/-- C6: for every ListUsers request, a page value of 0 or negative is
normalized to page 1, a page_size value ≤ 0 is normalized to the default page
size 10, and the query skips (page-1)*page_size documents and limits the
result to page_size. -/
theorem c6_listUsers_pagination (docs : List α) (req : ListUsersRequest) :
    (req.page ≤ 0 → (listUsers docs req).page = 1) ∧
    (0 < req.page → (listUsers docs req).page = req.page) ∧
    (req.pageSize ≤ 0 → (listUsers docs req).pageSize = 10) ∧
    (0 < req.pageSize → (listUsers docs req).pageSize = req.pageSize) ∧
    (listUsers docs req).users =
      (docs.drop (((listUsers docs req).page - 1) *
        (listUsers docs req).pageSize).toNat).take
        (listUsers docs req).pageSize.toNat := by
  refine ⟨fun h => ?_, fun h => ?_, fun h => ?_, fun h => ?_, ?_⟩ <;>
    simp [listUsers] <;> omega

/-- Witness for C6 at page 0, page size -3, on a five-element collection. -/
theorem c6_listUsers_pagination_witness :
    (listUsers ([10, 11, 12, 13, 14] : List Nat) ⟨0, -3⟩).page = 1 ∧
    (listUsers ([10, 11, 12, 13, 14] : List Nat) ⟨0, -3⟩).pageSize = 10 :=
  ⟨(c6_listUsers_pagination [10, 11, 12, 13, 14] ⟨0, -3⟩).1 (by decide),
   (c6_listUsers_pagination [10, 11, 12, 13, 14] ⟨0, -3⟩).2.2.1 (by decide)⟩

/-- C7: `GatewayServer.stop` is idempotent — invoking it again on the state a
previous stop left behind is a no-op returning success — and invoking it
before `start` has built the HTTP server (the `server` field still `nil`) is a
no-op returning success. -/
theorem c7_gateway_stop_idempotent (g : GatewayServer) :
    GatewayServer.stop (GatewayServer.stop g).2 =
      (Except.ok (), (GatewayServer.stop g).2) ∧
    GatewayServer.stop ⟨none⟩ = (Except.ok (), (⟨none⟩ : GatewayServer)) := by
  constructor
  · match g with
    | ⟨none⟩ => rfl
    | ⟨some h⟩ =>
      by_cases hc : h.shutdownCalled <;>
        simp [GatewayServer.stop, HttpServer.shutdown, hc]
  · rfl

/-- C8 as amended: the datastore connect and health-check operations are each
bounded by a timeout — any driver call running past the bound is cut off with
a deadline error — with the connect bound equal to 10 seconds and the
health-check bound equal to 5 seconds. -/
theorem c8_mongo_operations_bounded (env : MongoEnv) :
    (mongoConnectTimeoutSeconds < env.connectDur →
      newMongoDB env = Except.error DbError.deadlineExceeded) ∧
    (mongoHealthTimeoutSeconds < env.pingDur →
      mongoHealth env = Except.error DbError.deadlineExceeded) ∧
    mongoConnectTimeoutSeconds = 10 ∧ mongoHealthTimeoutSeconds = 5 := by
  refine ⟨fun h => ?_, fun h => ?_, rfl, rfl⟩ <;>
    simp [newMongoDB, mongoHealth, runBounded, h]

/-- Witness for C8 with a connect taking 11 seconds and a ping taking
6 seconds. -/
theorem c8_mongo_operations_bounded_witness :
    newMongoDB ⟨11, Except.ok (), 6, Except.ok ()⟩ =
      Except.error DbError.deadlineExceeded ∧
    mongoHealth ⟨11, Except.ok (), 6, Except.ok ()⟩ =
      Except.error DbError.deadlineExceeded :=
  ⟨(c8_mongo_operations_bounded ⟨11, Except.ok (), 6, Except.ok ()⟩).1 (by decide),
   (c8_mongo_operations_bounded ⟨11, Except.ok (), 6, Except.ok ()⟩).2.1 (by decide)⟩

/-- C8 counterexample: the claim as stated says the reference bounds are
single-digit numbers of seconds, but the connect bound is 10 seconds. -/
theorem c8_counterexample : ¬ (mongoConnectTimeoutSeconds ≤ 9) := by decide

/-- C10: for every GetUser, UpdateUser or DeleteUser request whose id is not a
valid hex ObjectID, the operation returns an InvalidArgument error — a code
distinct from NotFound — before any database operation, leaving the stored
data unchanged. -/
theorem c10_invalid_id_rejected (store : UserStore) (now : Nat) (id : String)
    (name email phone : Option String)
    (h : objectIDFromHex id = none) :
    getUser store id = (Except.error GrpcCode.invalidArgument, store) ∧
    updateUser store now ⟨id, name, email, phone⟩ =
      (Except.error GrpcCode.invalidArgument, store) ∧
    deleteUser store id = (Except.error GrpcCode.invalidArgument, store) ∧
    GrpcCode.invalidArgument ≠ GrpcCode.notFound := by
  refine ⟨?_, ?_, ?_, by decide⟩ <;>
    simp [getUser, updateUser, deleteUser, h]

/-- Witness for C10 at the invalid id "zz" on a one-user collection. -/
theorem c10_invalid_id_rejected_witness :
    getUser [⟨"aaaaaaaaaaaaaaaaaaaaaaaa", "alice", "a@x.com", "+1", 100, 100⟩]
        "zz" =
      (Except.error GrpcCode.invalidArgument,
       [⟨"aaaaaaaaaaaaaaaaaaaaaaaa", "alice", "a@x.com", "+1", 100, 100⟩]) ∧
    deleteUser [⟨"aaaaaaaaaaaaaaaaaaaaaaaa", "alice", "a@x.com", "+1", 100, 100⟩]
        "zz" =
      (Except.error GrpcCode.invalidArgument,
       [⟨"aaaaaaaaaaaaaaaaaaaaaaaa", "alice", "a@x.com", "+1", 100, 100⟩]) :=
  ⟨(c10_invalid_id_rejected
      [⟨"aaaaaaaaaaaaaaaaaaaaaaaa", "alice", "a@x.com", "+1", 100, 100⟩]
      0 "zz" none none none (by decide)).1,
   (c10_invalid_id_rejected
      [⟨"aaaaaaaaaaaaaaaaaaaaaaaa", "alice", "a@x.com", "+1", 100, 100⟩]
      0 "zz" none none none (by decide)).2.2.1⟩

/-- C9: for every UpdateUser request on an existing user, exactly the fields
present in the request (name, email, phone when non-nil) plus updated_at are
modified; any optional field absent from the request, as well as the user's id
and created_at, is left unchanged, and updated_at is set even when no optional
field is present in the request. -/
theorem c9_update_frame (store : UserStore) (now : Nat)
    (req : UpdateUserRequest) (oid : String) (u : StoredUser)
    (hoid : objectIDFromHex req.id = some oid)
    (hfind : store.find? (fun v => v.id = oid) = some u) :
    (updateUser store now req).1 = Except.ok (applySet now req u) ∧
    (updateUser store now req).2 =
      updateFirst (fun v => v.id = oid) (applySet now req) store ∧
    (applySet now req u).id = u.id ∧
    (applySet now req u).createdAt = u.createdAt ∧
    (applySet now req u).updatedAt = now ∧
    (req.name = none → (applySet now req u).name = u.name) ∧
    (∀ v, req.name = some v → (applySet now req u).name = v) ∧
    (req.email = none → (applySet now req u).email = u.email) ∧
    (∀ v, req.email = some v → (applySet now req u).email = v) ∧
    (req.phone = none → (applySet now req u).phone = u.phone) ∧
    (∀ v, req.phone = some v → (applySet now req u).phone = v) := by
  refine ⟨?_, ?_, rfl, rfl, rfl, ?_, ?_, ?_, ?_, ?_, ?_⟩
  · simp [updateUser, hoid, hfind]
  · simp [updateUser, hoid, hfind]
  · intro h; simp [applySet, h]
  · intro v h; simp [applySet, h]
  · intro h; simp [applySet, h]
  · intro v h; simp [applySet, h]
  · intro h; simp [applySet, h]
  · intro v h; simp [applySet, h]

/-- Witness for C9: updating only the name of a stored user; the email is
left unchanged and updated_at takes the new clock value. -/
theorem c9_update_frame_witness :
    (updateUser [⟨"aaaaaaaaaaaaaaaaaaaaaaaa", "alice", "a@x.com", "+1", 100, 100⟩]
        200 ⟨"aaaaaaaaaaaaaaaaaaaaaaaa", some "bob", none, none⟩).1 =
      Except.ok (applySet 200 ⟨"aaaaaaaaaaaaaaaaaaaaaaaa", some "bob", none, none⟩
        ⟨"aaaaaaaaaaaaaaaaaaaaaaaa", "alice", "a@x.com", "+1", 100, 100⟩) ∧
    (applySet 200 ⟨"aaaaaaaaaaaaaaaaaaaaaaaa", some "bob", none, none⟩
        ⟨"aaaaaaaaaaaaaaaaaaaaaaaa", "alice", "a@x.com", "+1", 100, 100⟩).email =
      "a@x.com" :=
  ⟨(c9_update_frame
      [⟨"aaaaaaaaaaaaaaaaaaaaaaaa", "alice", "a@x.com", "+1", 100, 100⟩]
      200 ⟨"aaaaaaaaaaaaaaaaaaaaaaaa", some "bob", none, none⟩
      "aaaaaaaaaaaaaaaaaaaaaaaa"
      ⟨"aaaaaaaaaaaaaaaaaaaaaaaa", "alice", "a@x.com", "+1", 100, 100⟩
      (by decide) (by decide)).1,
   (c9_update_frame
      [⟨"aaaaaaaaaaaaaaaaaaaaaaaa", "alice", "a@x.com", "+1", 100, 100⟩]
      200 ⟨"aaaaaaaaaaaaaaaaaaaaaaaa", some "bob", none, none⟩
      "aaaaaaaaaaaaaaaaaaaaaaaa"
      ⟨"aaaaaaaaaaaaaaaaaaaaaaaa", "alice", "a@x.com", "+1", 100, 100⟩
      (by decide) (by decide)).2.2.2.2.2.2.2.1 rfl⟩

/-- C5 counterexample: with LOG_LEVEL set to the unparsable value "banana" —
a malformed configuration input, rejected by logrus.ParseLevel — config.Load
still succeeds, returning the full config with the effective level silently
replaced by info: loading does not fail and the process proceeds. -/
theorem c5_counterexample :
    parseLevel "banana" = none ∧
    loadConfig ⟨none, none, none, none, none, some "banana"⟩ =
      Except.ok
        (⟨⟨"mongodb://localhost:27017", "grpcgateway_db"⟩,
          ⟨"9090", "8080", "localhost"⟩, "banana"⟩, LogLevel.infoLevel) := by
  exact ⟨rfl, rfl⟩

/-- C5 as amended: configuration loading never fails — for every environment
`config.Load` returns success, with defaults applied for unset variables — and
when the supplied log level is unparsable the load still succeeds with the
effective level replaced by info; `runServer`'s non-zero-exit path for a
failed load is therefore unreachable. -/
theorem c5_load_never_fails (env : ConfigEnv) :
    (∃ c, loadConfig env = Except.ok c) ∧
    (parseLevel (getOr env.logLevel "info") = none →
      loadConfig env = Except.ok (configOf env, LogLevel.infoLevel)) := by
  refine ⟨⟨_, rfl⟩, fun h => ?_⟩
  have hl : (configOf env).logLevel = getOr env.logLevel "info" := rfl
  simp [loadConfig, hl, h]

/-- Witness for C5's amended claim at the environment whose LOG_LEVEL is
"banana". -/
theorem c5_load_never_fails_witness :
    loadConfig ⟨none, none, none, none, none, some "banana"⟩ =
      Except.ok (configOf ⟨none, none, none, none, none, some "banana"⟩,
        LogLevel.infoLevel) :=
  (c5_load_never_fails ⟨none, none, none, none, none, some "banana"⟩).2
    (by decide)

/-! ## Coordinator invariants and theorems for C1, C2 -/

/-- One step preserves the coordinator invariant. -/
theorem coordStep_inv (s : CoordState) (l : Label) (h : CoordInv s) :
    CoordInv (coordStep s l) := by
  obtain ⟨hct, hcc, hpj⟩ := h
  cases l with
  | grpcExit =>
    by_cases hg : s.grpcUnit = UnitState.running
    · have hs : coordStep s Label.grpcExit =
          { s with grpcUnit := UnitState.done,
                   trace := s.trace ++ [Event.grpcExited] } := by
        simp [coordStep, hg]
      rw [hs]
      refine ⟨?_, hcc, fun hp => ⟨rfl, (hpj hp).2⟩⟩
      simpa [ctrlTrace, List.filter_append, isCtrlEvent] using hct
    · have hs : coordStep s Label.grpcExit = s := by simp [coordStep, hg]
      rw [hs]; exact ⟨hct, hcc, hpj⟩
  | gatewayExit =>
    by_cases hg : s.gatewayUnit = UnitState.running
    · have hs : coordStep s Label.gatewayExit =
          { s with gatewayUnit := UnitState.done,
                   trace := s.trace ++ [Event.gatewayExited] } := by
        simp [coordStep, hg]
      rw [hs]
      refine ⟨?_, hcc, fun hp => ⟨(hpj hp).1, rfl⟩⟩
      simpa [ctrlTrace, List.filter_append, isCtrlEvent] using hct
    · have hs : coordStep s Label.gatewayExit = s := by simp [coordStep, hg]
      rw [hs]; exact ⟨hct, hcc, hpj⟩
  | signal =>
    by_cases hp : s.pc = MainPC.waiting
    · have hs : coordStep s Label.signal =
          { s with pc := MainPC.stopGatewayCall } := by
        simp [coordStep, hp]
      rw [hs]
      refine ⟨?_, ?_, ?_⟩
      · simpa [expectedCtrl, hp] using hct
      · simpa [expectedCancelled, hp] using hcc
      · intro hpast; simp [pastJoin] at hpast
    · have hs : coordStep s Label.signal = s := by simp [coordStep, hp]
      rw [hs]; exact ⟨hct, hcc, hpj⟩
  | ctxDone =>
    by_cases hp : s.pc = MainPC.waiting
    · have hcf : s.ctxCancelled = false := by
        simpa [expectedCancelled, hp] using hcc
      have hs : coordStep s Label.ctxDone = s := by
        simp [coordStep, hp, hcf]
      rw [hs]; exact ⟨hct, hcc, hpj⟩
    · have hs : coordStep s Label.ctxDone = s := by simp [coordStep, hp]
      rw [hs]; exact ⟨hct, hcc, hpj⟩
  | mainStep =>
    cases hp : s.pc with
    | waiting =>
      have hs : coordStep s Label.mainStep = s := by simp [coordStep, hp]
      rw [hs]; exact ⟨hct, hcc, hpj⟩
    | stopGatewayCall =>
      have h0 : ctrlTrace s = [] := by simpa [expectedCtrl, hp] using hct
      have hs : coordStep s Label.mainStep =
          { s with pc := MainPC.stopGrpcCall,
                   trace := s.trace ++ [Event.gatewayStopCalled] } := by
        simp [coordStep, hp]
      rw [hs]
      refine ⟨?_, ?_, ?_⟩
      · simp only [ctrlTrace] at h0 ⊢
        simp [List.filter_append, isCtrlEvent, h0, expectedCtrl]
      · simpa [expectedCancelled, hp] using hcc
      · intro hpast; simp [pastJoin] at hpast
    | stopGrpcCall =>
      have h0 : ctrlTrace s = [Event.gatewayStopCalled] := by
        simpa [expectedCtrl, hp] using hct
      have hs : coordStep s Label.mainStep =
          { s with pc := MainPC.joinUnits,
                   trace := s.trace ++ [Event.grpcStopCalled] } := by
        simp [coordStep, hp]
      rw [hs]
      refine ⟨?_, ?_, ?_⟩
      · simp only [ctrlTrace] at h0 ⊢
        simp [List.filter_append, isCtrlEvent, h0, expectedCtrl]
      · simpa [expectedCancelled, hp] using hcc
      · intro hpast; simp [pastJoin] at hpast
    | joinUnits =>
      by_cases h1 : s.grpcUnit = UnitState.done
      · by_cases h2 : s.gatewayUnit = UnitState.done
        · have h0 : ctrlTrace s =
              [Event.gatewayStopCalled, Event.grpcStopCalled] := by
            simpa [expectedCtrl, hp] using hct
          have hs : coordStep s Label.mainStep =
              { s with pc := MainPC.deferCancel,
                       trace := s.trace ++ [Event.unitsJoined] } := by
            simp [coordStep, hp, h1, h2]
          rw [hs]
          refine ⟨?_, ?_, fun _ => ⟨h1, h2⟩⟩
          · simp only [ctrlTrace] at h0 ⊢
            simp [List.filter_append, isCtrlEvent, h0, expectedCtrl]
          · simpa [expectedCancelled, hp] using hcc
        · have hs : coordStep s Label.mainStep = s := by
            simp [coordStep, hp, h1, h2]
          rw [hs]; exact ⟨hct, hcc, hpj⟩
      · have hs : coordStep s Label.mainStep = s := by
          simp [coordStep, hp, h1]
        rw [hs]; exact ⟨hct, hcc, hpj⟩
    | deferCancel =>
      have hs : coordStep s Label.mainStep =
          { s with pc := MainPC.deferCloseDb, ctxCancelled := true } := by
        simp [coordStep, hp]
      rw [hs]
      refine ⟨?_, rfl, fun _ => hpj (by simp [pastJoin, hp])⟩
      simpa [expectedCtrl, hp] using hct
    | deferCloseDb =>
      have h0 : ctrlTrace s =
          [Event.gatewayStopCalled, Event.grpcStopCalled,
           Event.unitsJoined] := by
        simpa [expectedCtrl, hp] using hct
      have hs : coordStep s Label.mainStep =
          { s with pc := MainPC.returned,
                   trace := s.trace ++ [Event.dbClosed] } := by
        simp [coordStep, hp]
      rw [hs]
      refine ⟨?_, by simpa [expectedCancelled, hp] using hcc,
        fun _ => hpj (by simp [pastJoin, hp])⟩
      simp only [ctrlTrace] at h0 ⊢
      simp [List.filter_append, isCtrlEvent, h0, expectedCtrl]
    | returned =>
      have hs : coordStep s Label.mainStep = s := by simp [coordStep, hp]
      rw [hs]; exact ⟨hct, hcc, hpj⟩

/-- The coordinator invariant holds along every schedule. -/
theorem coordRun_inv (ls : List Label) :
    ∀ s, CoordInv s → CoordInv (coordRun ls s) := by
  induction ls with
  | nil => exact fun s h => h
  | cons l ls ih => exact fun s h => ih (coordStep s l) (coordStep_inv s l h)

/-- The initial coordinator state satisfies the invariant. -/
theorem initCoord_inv : CoordInv initCoord :=
  ⟨rfl, rfl, fun hpast => by simp [initCoord, pastJoin] at hpast⟩

/-- C2: under every schedule, the datastore handle is closed only with the
main goroutine at its final position, and a run that has returned control to
the caller has emitted exactly gateway-stop, then grpc-stop, then the join of
both server goroutines, then the datastore close — so `GatewayServer.stop()`
is always invoked before `RPCServer.stop()`, the datastore is closed only
after both stop attempts were issued and both goroutines were joined, and only
then does `runServer` return. -/
theorem c2_shutdown_order (ls : List Label) :
    (Event.dbClosed ∈ (coordRun ls initCoord).trace →
      (coordRun ls initCoord).pc = MainPC.returned) ∧
    ((coordRun ls initCoord).pc = MainPC.returned →
      ctrlTrace (coordRun ls initCoord) =
        [Event.gatewayStopCalled, Event.grpcStopCalled, Event.unitsJoined,
         Event.dbClosed] ∧
      (coordRun ls initCoord).grpcUnit = UnitState.done ∧
      (coordRun ls initCoord).gatewayUnit = UnitState.done) := by
  obtain ⟨hct, hcc, hpj⟩ := coordRun_inv ls initCoord initCoord_inv
  constructor
  · intro hdb
    have hdbc : Event.dbClosed ∈ ctrlTrace (coordRun ls initCoord) := by
      simp [ctrlTrace, List.mem_filter, hdb, isCtrlEvent]
    rw [hct] at hdbc
    cases hpc : (coordRun ls initCoord).pc
    case returned => rfl
    all_goals rw [hpc] at hdbc
    all_goals simp [expectedCtrl] at hdbc
  · intro hret
    have hdone := hpj (by rw [hret]; rfl)
    refine ⟨?_, hdone.1, hdone.2⟩
    rw [hct, hret]
    rfl

/-- Witness for C2 on a concrete schedule: a signal arrives, the two stops are
issued, both goroutines exit, the join passes, and the deferred cancel and
close run. -/
theorem c2_shutdown_order_witness :
    ctrlTrace (coordRun
      [Label.signal, Label.mainStep, Label.mainStep, Label.gatewayExit,
       Label.grpcExit, Label.mainStep, Label.mainStep, Label.mainStep]
      initCoord) =
      [Event.gatewayStopCalled, Event.grpcStopCalled, Event.unitsJoined,
       Event.dbClosed] :=
  ((c2_shutdown_order
      [Label.signal, Label.mainStep, Label.mainStep, Label.gatewayExit,
       Label.grpcExit, Label.mainStep, Label.mainStep, Label.mainStep]).2
    (by decide)).1

/-- Any step other than a signal delivery preserves the stuck invariant: unit
exits are merely logged, `ctx.Done()` cannot fire while `cancel` has not run,
and the select keeps blocking. -/
theorem coordStep_stuck (s : CoordState) (l : Label)
    (hl : l ≠ Label.signal) (h : StuckInv s) : StuckInv (coordStep s l) := by
  obtain ⟨hp, hc, ht⟩ := h
  cases l with
  | signal => exact absurd rfl hl
  | grpcExit =>
    by_cases hg : s.grpcUnit = UnitState.running
    · have hs : coordStep s Label.grpcExit =
          { s with grpcUnit := UnitState.done,
                   trace := s.trace ++ [Event.grpcExited] } := by
        simp [coordStep, hg]
      rw [hs]
      refine ⟨hp, hc, ?_⟩
      simpa [ctrlTrace, List.filter_append, isCtrlEvent] using ht
    · have hs : coordStep s Label.grpcExit = s := by simp [coordStep, hg]
      rw [hs]; exact ⟨hp, hc, ht⟩
  | gatewayExit =>
    by_cases hg : s.gatewayUnit = UnitState.running
    · have hs : coordStep s Label.gatewayExit =
          { s with gatewayUnit := UnitState.done,
                   trace := s.trace ++ [Event.gatewayExited] } := by
        simp [coordStep, hg]
      rw [hs]
      refine ⟨hp, hc, ?_⟩
      simpa [ctrlTrace, List.filter_append, isCtrlEvent] using ht
    · have hs : coordStep s Label.gatewayExit = s := by simp [coordStep, hg]
      rw [hs]; exact ⟨hp, hc, ht⟩
  | ctxDone =>
    have hs : coordStep s Label.ctxDone = s := by simp [coordStep, hp, hc]
    rw [hs]; exact ⟨hp, hc, ht⟩
  | mainStep =>
    have hs : coordStep s Label.mainStep = s := by simp [coordStep, hp]
    rw [hs]; exact ⟨hp, hc, ht⟩

/-- The stuck invariant holds along every signal-free schedule. -/
theorem coordRun_stuck (ls : List Label) :
    ∀ s, Label.signal ∉ ls → StuckInv s → StuckInv (coordRun ls s) := by
  induction ls with
  | nil => exact fun s _ h => h
  | cons l ls ih =>
    intro s hls h
    have h1 : l ≠ Label.signal := by
      intro e; exact hls (by simp [e])
    have h2 : Label.signal ∉ ls := fun m => hls (List.mem_cons_of_mem l m)
    exact ih (coordStep s l) h2 (coordStep_stuck s l h1 h)

/-- The gateway goroutine's state is untouched by every label except its own
exit. -/
theorem coordRun_gateway_untouched (ls : List Label) :
    ∀ s, Label.gatewayExit ∉ ls →
      (coordRun ls s).gatewayUnit = s.gatewayUnit := by
  induction ls with
  | nil => exact fun s _ => rfl
  | cons l ls ih =>
    intro s hls
    have h1 : l ≠ Label.gatewayExit := by
      intro e; exact hls (by simp [e])
    have h2 : Label.gatewayExit ∉ ls := fun m => hls (List.mem_cons_of_mem l m)
    have hstep : (coordStep s l).gatewayUnit = s.gatewayUnit := by
      cases l with
      | gatewayExit => exact absurd rfl h1
      | grpcExit =>
        by_cases hg : s.grpcUnit = UnitState.running <;> simp [coordStep, hg]
      | signal =>
        by_cases hq : s.pc = MainPC.waiting <;> simp [coordStep, hq]
      | ctxDone =>
        by_cases hq : s.pc = MainPC.waiting
        · by_cases hcc : s.ctxCancelled <;> simp [coordStep, hq, hcc]
        · simp [coordStep, hq]
      | mainStep =>
        cases hq : s.pc <;> simp [coordStep, hq]
        by_cases hg1 : s.grpcUnit = UnitState.done
        · by_cases hg2 : s.gatewayUnit = UnitState.done <;> simp [hg1, hg2]
        · simp [hg1]
    calc (coordRun (l :: ls) s).gatewayUnit
        = (coordRun ls (coordStep s l)).gatewayUnit := rfl
      _ = (coordStep s l).gatewayUnit := ih (coordStep s l) h2
      _ = s.gatewayUnit := hstep

/-- C1, documenting the divergence: after the gRPC goroutine's `Start()`
returns an error (for example its port already bound), every schedule that
delivers no OS signal leaves the coordinator blocked in its select with the
context never cancelled, no stop ever issued, and the gateway goroutine still
running unless it fails on its own — the failure is only logged, shutdown of
the other server never begins, and the process keeps running with a single
server, contrary to the claim (the dead `ctx.Done()` branch of the select
shows the intended cancel-on-failure wiring is missing). -/
theorem c1_failure_not_observed (ls : List Label)
    (hls : Label.signal ∉ ls) :
    (coordRun ls (coordStep initCoord Label.grpcExit)).pc = MainPC.waiting ∧
    (coordRun ls (coordStep initCoord Label.grpcExit)).ctxCancelled = false ∧
    Event.gatewayStopCalled ∉
      (coordRun ls (coordStep initCoord Label.grpcExit)).trace ∧
    (Label.gatewayExit ∉ ls →
      (coordRun ls (coordStep initCoord Label.grpcExit)).gatewayUnit =
        UnitState.running) := by
  have h0 : StuckInv (coordStep initCoord Label.grpcExit) := by
    refine ⟨rfl, rfl, ?_⟩
    simp [initCoord, coordStep, ctrlTrace, isCtrlEvent]
  have hstuck := coordRun_stuck ls (coordStep initCoord Label.grpcExit) hls h0
  obtain ⟨hp, hc, ht⟩ := hstuck
  refine ⟨hp, hc, ?_, ?_⟩
  · intro hmem
    have : Event.gatewayStopCalled ∈
        ctrlTrace (coordRun ls (coordStep initCoord Label.grpcExit)) := by
      simp [ctrlTrace, List.mem_filter, hmem, isCtrlEvent]
    rw [ht] at this
    simp at this
  · intro hgw
    have := coordRun_gateway_untouched ls
      (coordStep initCoord Label.grpcExit) hgw
    rw [this]
    rfl

/-- Witness for C1: the concrete signal-free schedule where the main goroutine
is given two chances to move and the dead `ctx.Done()` branch is offered —
the coordinator stays blocked and the gateway keeps running. -/
theorem c1_failure_not_observed_witness :
    (coordRun [Label.mainStep, Label.ctxDone]
      (coordStep initCoord Label.grpcExit)).pc = MainPC.waiting ∧
    (coordRun [Label.mainStep, Label.ctxDone]
      (coordStep initCoord Label.grpcExit)).gatewayUnit = UnitState.running :=
  ⟨(c1_failure_not_observed [Label.mainStep, Label.ctxDone] (by decide)).1,
   (c1_failure_not_observed [Label.mainStep, Label.ctxDone]
      (by decide)).2.2.2 (by decide)⟩

/-! ## Theorems for C3, C4 -/

/-- C3: the gateway's connection attempt to the RPC server either returns
once the listener is ready (the blocking dial succeeding) or fails as a
DialError; whenever the dial fails, `Start` returns the wrapped dial error
and never proceeds to serve HTTP, and conversely reaching the HTTP serving
stage implies the dial succeeded. -/
theorem c3_dial_failure_stops_start (env : StartEnv) :
    (∀ e, env.dial = Except.error e →
      gatewayStart env =
        StartOutcome.dialFailed ("failed to dial gRPC server: " ++ e) ∧
      ∀ r, gatewayStart env ≠ StartOutcome.served r) ∧
    (∀ r, gatewayStart env = StartOutcome.served r →
      env.dial = Except.ok ()) := by
  constructor
  · intro e he
    constructor
    · simp [gatewayStart, he]
    · intro r hcon
      rw [gatewayStart, he] at hcon
      exact StartOutcome.noConfusion hcon
  · intro r hr
    cases hd : env.dial with
    | error e =>
      rw [gatewayStart, hd] at hr
      exact absurd hr (fun hcon => StartOutcome.noConfusion hcon)
    | ok u => cases u; rfl

/-- Witness for C3 at a dial failing with "connection refused": `Start`
returns the wrapped dial error. -/
theorem c3_dial_failure_stops_start_witness :
    gatewayStart ⟨Except.error "connection refused", Except.ok (),
        Except.ok ()⟩ =
      StartOutcome.dialFailed
        ("failed to dial gRPC server: " ++ "connection refused") :=
  ((c3_dial_failure_stops_start ⟨Except.error "connection refused",
      Except.ok (), Except.ok ()⟩).1 "connection refused" rfl).1

/-- C4 counterexample: the claim says every response, regardless of path,
carries the CORS headers and every OPTIONS request short-circuits to an empty
200 — but the two swagger routes are registered outside the CORS middleware:
the response for GET /swagger.json carries no Access-Control-Allow-Origin
header, and OPTIONS /swagger/ returns the full HTML viewer page rather than
an empty body. -/
theorem c4_counterexample :
    (("Access-Control-Allow-Origin", "*") ∉
      (serveGateway sampleRoutingEnv ⟨"GET", "/swagger.json"⟩).headers) ∧
    (serveGateway sampleRoutingEnv ⟨"OPTIONS", "/swagger/"⟩).body ≠ "" := by
  constructor
  · decide
  · decide

/-- C4 as amended: every response served through the CORS-wrapped catch-all
route — any path other than `/swagger.json`, the `/swagger/` subtree and the
`/swagger` redirect — carries the three CORS headers, and an OPTIONS request
to such a path yields exactly status 200 with an empty body and the three
headers, independently of the grpc-gateway handler, which is never reached. -/
theorem c4_cors_on_gateway_routes (env : RoutingEnv) (r : Request)
    (h1 : r.path ≠ "/swagger.json")
    (h2 : List.isPrefixOf "/swagger/".data r.path.data = false)
    (h3 : r.path ≠ "/swagger") :
    (∀ hd ∈ corsHeaders, hd ∈ (serveGateway env r).headers) ∧
    (r.method = "OPTIONS" →
      serveGateway env r =
        { status := 200, headers := corsHeaders, body := "" }) := by
  have hroute : serveGateway env r = corsMiddleware env.gatewayMux r := by
    rw [serveGateway, if_neg h1]
    rw [if_neg (by simp [h2]), if_neg h3]
  constructor
  · intro hd hmem
    rw [hroute]
    by_cases hm : r.method = "OPTIONS" <;>
      simp [corsMiddleware, hm, hmem, List.mem_append]
  · intro hm
    rw [hroute]
    simp [corsMiddleware, hm]

/-- Witness for C4's amended claim: an OPTIONS request to /api/v1/users gets
the bare CORS 200. -/
theorem c4_cors_on_gateway_routes_witness :
    serveGateway sampleRoutingEnv ⟨"OPTIONS", "/api/v1/users"⟩ =
      { status := 200, headers := corsHeaders, body := "" } :=
  (c4_cors_on_gateway_routes sampleRoutingEnv ⟨"OPTIONS", "/api/v1/users"⟩
    (by decide) (by decide) (by decide)).2 rfl


end GrpcGateway
